import Mathlib

/-!
Verification of the Book Admin screen
(src/frontend/src/Pages/BooksAdmin.tsx).

The component is a single React screen holding all state in hooks
(lines 42-54) and performing all network calls through fetch.  We embed
it as a record `ScreenState` together with one pure function per event
handler.  Network outcomes (response ok / parsed body) are passed in as
explicit parameters, since the embedding has no IO; each handler that
performs requests also returns the list of requests it issued, in order.
-/

/-- Book record received from the backend (lines 26-32). -/
structure Book where
  _id : String
  title : String
  author : String
  description : String
  cover : String
deriving Repr, DecidableEq

/-- Form state (lines 34-39).  The optional cover file is modelled by an
abstract payload string. -/
structure BookFormData where
  title : String
  author : String
  description : String
  cover : Option String
deriving Repr, DecidableEq

/-- The whole component state, one field per useState hook
(lines 42-54).  The JS Set of failed image ids is modelled as a list of
ids without duplicates, membership being what the code observes. -/
structure ScreenState where
  books : List Book
  isModalOpen : Bool
  isLoading : Bool
  error : Option String
  editingBook : Option Book
  formData : BookFormData
  failedImages : List String
deriving Repr, DecidableEq

/-- Fixed backend base (line 24). -/
def API_URL : String := "http://localhost:3001/api"

inductive Method where
  | GET
  | POST
  | PUT
  | DELETE
deriving Repr, DecidableEq

/-- Multipart payload built by handleSubmit (lines 104-110): the three
text fields plus the optional cover file. -/
structure Payload where
  title : String
  author : String
  description : String
  cover : Option String
deriving Repr, DecidableEq

/-- A network request as issued by fetch: method, url, optional body. -/
structure Request where
  method : Method
  url : String
  body : Option Payload
deriving Repr, DecidableEq

/-- Initial hook values (lines 42-54): empty list, modal closed, not
loading, no error, no edit target, empty form, no failed images. -/
def emptyForm : BookFormData :=
  { title := "", author := "", description := "", cover := none }

def initialState : ScreenState :=
  { books := [], isModalOpen := false, isLoading := false, error := none,
    editingBook := none, formData := emptyForm, failedImages := [] }

/-- fetchBooks (lines 56-65): GET on API_URL/books; on success the books
list is replaced wholesale by the parsed body; any failure (non-ok
response or thrown error) is caught and sets the static load error.
`result` is `some data` when the response is ok with body `data`, `none`
otherwise. -/
def fetchBooks (result : Option (List Book)) (s : ScreenState) :
    ScreenState × Request :=
  (match result with
   | some data => { s with books := data }
   | none => { s with error := some "Failed to load books" },
   { method := Method.GET, url := API_URL ++ "/books", body := none })

/-- handleInputChange (lines 71-75): computed-key assignment into the
form; the three text inputs are named title, author and description
(lines 242, 254, 266). -/
def handleInputChange (name value : String) (s : ScreenState) : ScreenState :=
  { s with formData :=
      if name = "title" then { s.formData with title := value }
      else if name = "author" then { s.formData with author := value }
      else if name = "description" then { s.formData with description := value }
      else s.formData }

/-- handleFileChange (lines 77-81): replaces the pending cover with the
first selected file, if any; no file selected leaves the state alone. -/
def handleFileChange (file : Option String) (s : ScreenState) : ScreenState :=
  match file with
  | some f => { s with formData := { s.formData with cover := some f } }
  | none => s

/-- resetForm (lines 83-87): empty form, no edit target, no error. -/
def resetForm (s : ScreenState) : ScreenState :=
  { s with formData := emptyForm, editingBook := none, error := none }

/-- The Add New Book button (lines 168-171): its onClick only runs
setIsModalOpen(true). -/
def startCreate (s : ScreenState) : ScreenState :=
  { s with isModalOpen := true }

/-- handleEdit (lines 89-97): set the edit target, copy the three text
fields into the form (the cover key is absent from the object literal,
so the pending file is cleared), open the modal. -/
def handleEdit (book : Book) (s : ScreenState) : ScreenState :=
  { s with
      editingBook := some book,
      formData := { title := book.title, author := book.author,
                    description := book.description, cover := none },
      isModalOpen := true }

/-- handleSubmit (lines 99-133).  Sets the loading flag and clears the
error, builds the multipart payload, issues PUT to
API_URL/books/(editingBook id) when an edit target is set and otherwise
POST to API_URL/books; on ok response awaits fetchBooks, closes the
modal and resets the form; on failure sets the static save error; the
finally block clears the loading flag either way.  `saveOk` is whether
the save response was ok, `fetchResult` the outcome of the inner
fetchBooks call; returned requests are in issue order. -/
def handleSubmit (saveOk : Bool) (fetchResult : Option (List Book))
    (s : ScreenState) : ScreenState × List Request :=
  let s1 : ScreenState := { s with isLoading := true, error := none }
  let payload : Payload :=
    { title := s.formData.title, author := s.formData.author,
      description := s.formData.description, cover := s.formData.cover }
  let req : Request :=
    match s.editingBook with
    | some b => { method := Method.PUT,
                  url := API_URL ++ "/books/" ++ b._id, body := some payload }
    | none => { method := Method.POST,
                url := API_URL ++ "/books", body := some payload }
  if saveOk then
    let f := fetchBooks fetchResult s1
    ({ resetForm { f.1 with isModalOpen := false } with isLoading := false },
     [req, f.2])
  else
    ({ s1 with error := some "Failed to save book", isLoading := false },
     [req])

/-- handleDelete (lines 135-149): a declined window.confirm returns
before any request; otherwise DELETE on API_URL/books/(bookId), on ok
awaits fetchBooks, on failure sets the static delete error. -/
def handleDelete (bookId : String) (confirmed : Bool) (deleteOk : Bool)
    (fetchResult : Option (List Book)) (s : ScreenState) :
    ScreenState × List Request :=
  if confirmed then
    let req : Request :=
      { method := Method.DELETE, url := API_URL ++ "/books/" ++ bookId,
        body := none }
    if deleteOk then
      let f := fetchBooks fetchResult s
      (f.1, [req, f.2])
    else
      ({ s with error := some "Failed to delete book" }, [req])
  else
    (s, [])

/-- handleImageError (lines 152-154): adds the id to the failed set
(Set.add, a no-op on an already present id). -/
def handleImageError (bookId : String) (s : ScreenState) : ScreenState :=
  { s with failedImages :=
      if s.failedImages.contains bookId then s.failedImages
      else s.failedImages ++ [bookId] }

/-- The Dialog onOpenChange handler (line 224) is setIsModalOpen itself:
it writes the new open value and touches nothing else. -/
def dialogOpenChange (v : Bool) (s : ScreenState) : ScreenState :=
  { s with isModalOpen := v }

/-- The Cancel button onClick (lines 290-293): close the modal, then
resetForm. -/
def cancelClick (s : ScreenState) : ScreenState :=
  resetForm { s with isModalOpen := false }

/-- The submit button disabled attribute (line 297) is the isLoading
flag. -/
def submitButtonDisabled (s : ScreenState) : Bool :=
  s.isLoading

/-- What a card shows in the cover area (lines 184-195): the fallback
view (icon plus title) when the id is in the failed set, otherwise the
img element with src API_URL ++ cover and alt the title. -/
inductive CoverView where
  | fallback (title : String)
  | image (src : String) (alt : String)
deriving Repr, DecidableEq

def renderCover (s : ScreenState) (book : Book) : CoverView :=
  if s.failedImages.contains book._id then CoverView.fallback book.title
  else CoverView.image (API_URL ++ book.cover) book.title

/-- One rendered card (lines 181-221): keyed by the book id, showing
cover, title, author and description. -/
structure CardView where
  key : String
  cover : CoverView
  title : String
  author : String
  description : String
deriving Repr, DecidableEq

def renderCard (s : ScreenState) (b : Book) : CardView :=
  { key := b._id, cover := renderCover s b, title := b.title,
    author := b.author, description := b.description }

/-- The grid (lines 180-222) maps the books list in order. -/
def renderCards (s : ScreenState) : List CardView :=
  s.books.map (renderCard s)

/-- Every user-drivable event of the screen, with the network outcomes
it depends on carried as data. -/
inductive Op where
  | load (result : Option (List Book))
  | addNew
  | editClick (book : Book)
  | fieldChange (name value : String)
  | fileChange (file : Option String)
  | submitClick (saveOk : Bool) (fetchResult : Option (List Book))
  | deleteClick (bookId : String) (confirmed deleteOk : Bool)
      (fetchResult : Option (List Book))
  | imageError (bookId : String)
  | openChange (v : Bool)
  | cancel

/-- One event step: the resulting state and the requests issued.  A
click on a disabled button never fires in the browser, so submitClick
dispatches handleSubmit only when the submit button (disabled while
isLoading, line 297) is enabled. -/
def step (op : Op) (s : ScreenState) : ScreenState × List Request :=
  match op with
  | Op.load r => let f := fetchBooks r s; (f.1, [f.2])
  | Op.addNew => (startCreate s, [])
  | Op.editClick b => (handleEdit b s, [])
  | Op.fieldChange n v => (handleInputChange n v s, [])
  | Op.fileChange f => (handleFileChange f s, [])
  | Op.submitClick ok fr =>
      if submitButtonDisabled s then (s, []) else handleSubmit ok fr s
  | Op.deleteClick bid c ok fr => handleDelete bid c ok fr s
  | Op.imageError bid => (handleImageError bid s, [])
  | Op.openChange v => (dialogOpenChange v s, [])
  | Op.cancel => (cancelClick s, [])

/-- Running a sequence of events from a state. -/
def runOps (ops : List Op) (s : ScreenState) : ScreenState :=
  ops.foldl (fun st op => (step op st).1) s

/-! Concrete fixtures used by counterexamples and witnesses. -/

/-- The concrete book of the scenario in the spec. -/
def bk0 : Book :=
  { _id := "1", title := "Dune", author := "Herbert", description := "d",
    cover := "/covers/1.jpg" }

/-- A state reachable by startEdit on bk0, a failed save, then a
dismissal of the dialog through onOpenChange: the edit target, form and
error survive. -/
def staleState : ScreenState :=
  { books := [bk0], isModalOpen := false, isLoading := false,
    error := some "Failed to save book", editingBook := some bk0,
    formData := { title := "Dune", author := "Herbert", description := "d",
                  cover := none },
    failedImages := [] }

/-- Claim C1 counterexample: the Add New Book onClick is only
setIsModalOpen(true), so from a state with a stale edit target the edit
target is not none afterward, the form is not empty and the error is
not cleared. -/
theorem startCreate_counterexample :
    ¬ ((startCreate staleState).editingBook = none ∧
       (startCreate staleState).formData = emptyForm ∧
       (startCreate staleState).error = none) := by
  decide

/-- Claim C1 (amended): startCreate (the Add New Book onClick) only sets
the modal-open flag; the edit target, the form fields, the error message
and all other state are left unchanged. -/
theorem startCreate_only_opens_modal (s : ScreenState) :
    (startCreate s).isModalOpen = true ∧
    (startCreate s).editingBook = s.editingBook ∧
    (startCreate s).formData = s.formData ∧
    (startCreate s).error = s.error ∧
    (startCreate s).books = s.books ∧
    (startCreate s).isLoading = s.isLoading ∧
    (startCreate s).failedImages = s.failedImages := by
  simp [startCreate]

/-- Claim C8: while the in-flight flag is set the submit button is
disabled (line 297), so a submit cannot be initiated: the click is inert
and no request is issued. -/
theorem submit_guarded (s : ScreenState) (saveOk : Bool)
    (fetchResult : Option (List Book)) (h : s.isLoading = true) :
    step (Op.submitClick saveOk fetchResult) s = (s, []) := by
  simp [step, submitButtonDisabled, h]

/-- Claim C8 witness: with the in-flight flag set in a concrete state, a
submit click changes nothing and issues no request. -/
theorem submit_guarded_witness :
    step (Op.submitClick true none)
        { initialState with isLoading := true } =
      ({ initialState with isLoading := true }, []) :=
  submit_guarded { initialState with isLoading := true } true none rfl

/-- Claim C9: when a book is not in the failed set, the img src used to
fetch its cover (line 189) is the concatenation of the fixed base
API_URL with the cover path of the book. -/
theorem cover_url_concat (s : ScreenState) (b : Book)
    (h : s.failedImages.contains b._id = false) :
    renderCover s b = CoverView.image (API_URL ++ b.cover) b.title := by
  simp only [renderCover, h]
  simp

/-- Claim C9 witness: the concrete book bk0 rendered from the initial
state fetches its cover from API_URL concatenated with its cover path. -/
theorem cover_url_concat_witness :
    renderCover initialState bk0 =
      CoverView.image (API_URL ++ bk0.cover) bk0.title :=
  cover_url_concat initialState bk0 rfl

/-- Claim C10: the Dialog onOpenChange handler only writes the
modal-open flag, leaving form fields, edit target, error and all other
state unchanged; hence an edit target set by handleEdit survives such a
dismissal; the Cancel button, in contrast, resets form, edit target and
error. -/
theorem dialog_dismiss_frame (s : ScreenState) (v : Bool) (b : Book) :
    ((dialogOpenChange v s).isModalOpen = v ∧
     (dialogOpenChange v s).formData = s.formData ∧
     (dialogOpenChange v s).editingBook = s.editingBook ∧
     (dialogOpenChange v s).error = s.error ∧
     (dialogOpenChange v s).books = s.books ∧
     (dialogOpenChange v s).failedImages = s.failedImages ∧
     (dialogOpenChange v s).isLoading = s.isLoading) ∧
    ((dialogOpenChange false (handleEdit b s)).editingBook = some b ∧
     (dialogOpenChange false (handleEdit b s)).formData =
       { title := b.title, author := b.author,
         description := b.description, cover := none }) ∧
    ((cancelClick s).formData = emptyForm ∧
     (cancelClick s).editingBook = none ∧
     (cancelClick s).error = none ∧
     (cancelClick s).isModalOpen = false) := by
  simp [dialogOpenChange, handleEdit, cancelClick, resetForm]

/-- Claim C3: on an ok save response, handleSubmit awaits the reload
(its second request is the GET on the list, and whenever that reload
parses data the list is replaced by it), closes the modal and resets the
form to empty fields, no edit target and no error; on a failed save it
sets the static save error and leaves modal flag, form fields, edit
target and list unchanged; and in both cases the finally block leaves
the in-flight flag cleared. -/
theorem submit_result_spec (s : ScreenState) (saveOk : Bool)
    (fetchResult : Option (List Book)) :
    (saveOk = true →
      ((handleSubmit saveOk fetchResult s).1.isModalOpen = false ∧
       (handleSubmit saveOk fetchResult s).1.formData = emptyForm ∧
       (handleSubmit saveOk fetchResult s).1.editingBook = none ∧
       (handleSubmit saveOk fetchResult s).1.error = none ∧
       ((handleSubmit saveOk fetchResult s).2.drop 1 =
         [{ method := Method.GET, url := API_URL ++ "/books",
            body := none }]) ∧
       ∀ data, fetchResult = some data →
         (handleSubmit saveOk fetchResult s).1.books = data)) ∧
    (saveOk = false →
      ((handleSubmit saveOk fetchResult s).1.error =
         some "Failed to save book" ∧
       (handleSubmit saveOk fetchResult s).1.isModalOpen = s.isModalOpen ∧
       (handleSubmit saveOk fetchResult s).1.formData = s.formData ∧
       (handleSubmit saveOk fetchResult s).1.editingBook = s.editingBook ∧
       (handleSubmit saveOk fetchResult s).1.books = s.books)) ∧
    (handleSubmit saveOk fetchResult s).1.isLoading = false := by
  cases saveOk <;> cases fetchResult <;>
    simp [handleSubmit, fetchBooks, resetForm]

/-- Claim C3 witness: a concrete successful submit from staleState with
a reload returning [bk0] leaves the list [bk0], the modal closed, the
form reset and the flag cleared; a concrete failed submit keeps the form
and sets the save error. -/
theorem submit_result_spec_witness :
    ((handleSubmit true (some [bk0]) staleState).1.books = [bk0] ∧
     (handleSubmit true (some [bk0]) staleState).1.isModalOpen = false ∧
     (handleSubmit true (some [bk0]) staleState).1.formData = emptyForm) ∧
    ((handleSubmit false none staleState).1.error =
       some "Failed to save book" ∧
     (handleSubmit false none staleState).1.formData =
       staleState.formData) ∧
    (handleSubmit false none staleState).1.isLoading = false := by
  have hs := submit_result_spec staleState true (some [bk0])
  have hf := submit_result_spec staleState false none
  exact ⟨⟨(hs.1 rfl).2.2.2.2.2 [bk0] rfl, (hs.1 rfl).1, (hs.1 rfl).2.1⟩,
         ⟨(hf.2.1 rfl).1, (hf.2.1 rfl).2.2.1⟩, hf.2.2⟩

/-- Claim C4: the save request handleSubmit issues first is a PUT on
API_URL/books/(id of the edit target) exactly when an edit target is
set, and a POST on API_URL/books otherwise; moreover after handleEdit b
the submit issues the PUT addressed to the id of b and no request of the
whole submit is a POST. -/
theorem submit_request_target (s : ScreenState) (saveOk : Bool)
    (fetchResult : Option (List Book)) :
    (∀ b, s.editingBook = some b →
      ((handleSubmit saveOk fetchResult s).2.head?.map
          (fun r => (r.method, r.url)) =
        some (Method.PUT, API_URL ++ "/books/" ++ b._id) ∧
       ∀ r ∈ (handleSubmit saveOk fetchResult s).2,
         r.method ≠ Method.POST)) ∧
    (s.editingBook = none →
      (handleSubmit saveOk fetchResult s).2.head?.map
          (fun r => (r.method, r.url)) =
        some (Method.POST, API_URL ++ "/books")) ∧
    (∀ b,
      ((handleSubmit saveOk fetchResult (handleEdit b s)).2.head?.map
          (fun r => (r.method, r.url)) =
        some (Method.PUT, API_URL ++ "/books/" ++ b._id) ∧
       ∀ r ∈ (handleSubmit saveOk fetchResult (handleEdit b s)).2,
         r.method ≠ Method.POST)) := by
  refine ⟨?_, ?_, ?_⟩
  · intro b hb
    cases saveOk <;> simp [handleSubmit, fetchBooks, hb]
  · intro hb
    cases saveOk <;> simp [handleSubmit, fetchBooks, hb]
  · intro b
    cases saveOk <;> simp [handleSubmit, handleEdit, fetchBooks]

/-- Claim C4 witness: from the concrete staleState (edit target bk0) a
submit issues the PUT addressed to the id of bk0; from the initial state
(no edit target) it issues the POST on the collection. -/
theorem submit_request_target_witness :
    ((handleSubmit true (some []) staleState).2.head?.map
        (fun r => (r.method, r.url)) =
      some (Method.PUT, API_URL ++ "/books/" ++ bk0._id) ∧
     ∀ r ∈ (handleSubmit true (some []) staleState).2,
       r.method ≠ Method.POST) ∧
    (handleSubmit true (some []) initialState).2.head?.map
        (fun r => (r.method, r.url)) =
      some (Method.POST, API_URL ++ "/books") :=
  ⟨(submit_request_target staleState true (some [])).1 bk0 rfl,
   (submit_request_target initialState true (some [])).2.1 rfl⟩

/-- Claim C5: a declined confirm leaves the whole state unchanged and
issues no request; a confirmed delete issues first the DELETE on
API_URL/books/(bookId); on an ok response the awaited reload replaces
the list by whatever data it returns, and on a failed response the
static delete error is set and the list is unchanged. -/
theorem delete_spec (s : ScreenState) (bid : String) (deleteOk : Bool)
    (fetchResult : Option (List Book)) :
    handleDelete bid false deleteOk fetchResult s = (s, []) ∧
    ((handleDelete bid true deleteOk fetchResult s).2.head? =
       some { method := Method.DELETE, url := API_URL ++ "/books/" ++ bid,
              body := none } ∧
     (deleteOk = true → ∀ data, fetchResult = some data →
       (handleDelete bid true deleteOk fetchResult s).1.books = data) ∧
     (deleteOk = false →
       ((handleDelete bid true deleteOk fetchResult s).1.error =
          some "Failed to delete book" ∧
        (handleDelete bid true deleteOk fetchResult s).1.books =
          s.books))) := by
  cases deleteOk <;> cases fetchResult <;>
    simp [handleDelete, fetchBooks]

/-- Claim C5 witness: deleting the id of bk0 from staleState without
confirming changes nothing; confirming with an ok response and a reload
returning the empty list empties the list; confirming with a failed
response sets the delete error and keeps the list. -/
theorem delete_spec_witness :
    handleDelete "1" false true (some []) staleState = (staleState, []) ∧
    (handleDelete "1" true true (some []) staleState).1.books = [] ∧
    (handleDelete "1" true false none staleState).1.error =
      some "Failed to delete book" := by
  have hd := delete_spec staleState "1" true (some [])
  have hf := delete_spec staleState "1" false none
  exact ⟨hd.1, hd.2.2.1 rfl [] rfl, (hf.2.2.2 rfl).1⟩

/-- Claim C6: when the list load parses data, the books list is replaced
by exactly that data and the grid renders one card per returned book in
returned order (keys are the returned ids in order); when the load
fails, the static load error is set and the previous list is kept. -/
theorem fetch_replaces_or_keeps (s : ScreenState)
    (result : Option (List Book)) :
    (∀ data, result = some data →
      ((fetchBooks result s).1.books = data ∧
       renderCards (fetchBooks result s).1 =
         data.map (renderCard (fetchBooks result s).1) ∧
       (renderCards (fetchBooks result s).1).map CardView.key =
         data.map (fun b => b._id))) ∧
    (result = none →
      ((fetchBooks result s).1.error = some "Failed to load books" ∧
       (fetchBooks result s).1.books = s.books)) := by
  cases result <;>
    simp [fetchBooks, renderCards, renderCard, renderCover,
      Function.comp]

/-- Claim C6 witness: the concrete scenario of the spec: a load
returning only bk0 shows exactly one card keyed by the id of bk0; a
failed load from staleState keeps [bk0] and sets the load error. -/
theorem fetch_replaces_or_keeps_witness :
    (fetchBooks (some [bk0]) initialState).1.books = [bk0] ∧
    (renderCards (fetchBooks (some [bk0]) initialState).1).map
      CardView.key = [bk0._id] ∧
    (fetchBooks none staleState).1.error = some "Failed to load books" ∧
    (fetchBooks none staleState).1.books = [bk0] := by
  have hs := fetch_replaces_or_keeps initialState (some [bk0])
  have hf := fetch_replaces_or_keeps staleState none
  exact ⟨(hs.1 [bk0] rfl).1, (hs.1 [bk0] rfl).2.2, (hf.2 rfl).1,
         (hf.2 rfl).2⟩

/-- The error hook only ever holds none or one of the three static
strings written by the three catch blocks. -/
def errorOK (e : Option String) : Prop :=
  e = none ∨ e = some "Failed to load books" ∨
  e = some "Failed to save book" ∨ e = some "Failed to delete book"

theorem errorOK_step (op : Op) (s : ScreenState) (h : errorOK s.error) :
    errorOK ((step op s).1).error := by
  unfold errorOK at h ⊢
  cases op with
  | load r =>
      cases r with
      | none => simp [step, fetchBooks]
      | some data =>
          simp only [step, fetchBooks]
          tauto
  | addNew => simpa [step, startCreate] using h
  | editClick b => simpa [step, handleEdit] using h
  | fieldChange n v => simpa [step, handleInputChange] using h
  | fileChange f => cases f <;> simpa [step, handleFileChange] using h
  | submitClick ok fr =>
      cases hb : submitButtonDisabled s
      · cases ok <;> cases fr <;>
          simp [step, hb, handleSubmit, fetchBooks, resetForm]
      · simpa [step, hb] using h
  | deleteClick bid c ok fr =>
      cases c <;> cases ok <;> cases fr <;>
        simp [step, handleDelete, fetchBooks] <;> tauto
  | imageError bid => simpa [step, handleImageError] using h
  | openChange v => simpa [step, dialogOpenChange] using h
  | cancel => simp [step, cancelClick, resetForm]

/-- Claim C2: over every event sequence from the initial state, whatever
the network outcomes, the error message is always absent or one of
exactly the three static strings Failed to load books, Failed to save
book, Failed to delete book; no other error text ever escapes an
operation. -/
theorem error_always_static (ops : List Op) :
    errorOK (runOps ops initialState).error := by
  have general : ∀ (l : List Op) (s : ScreenState), errorOK s.error →
      errorOK (runOps l s).error := by
    intro l
    induction l with
    | nil => intro s h; simpa [runOps] using h
    | cons op rest ih =>
        intro s h
        simpa [runOps] using ih (step op s).1 (errorOK_step op s h)
  exact general ops initialState (Or.inl rfl)

theorem failedImages_step_mono (op : Op) (s : ScreenState) (x : String)
    (h : x ∈ s.failedImages) : x ∈ ((step op s).1).failedImages := by
  cases op with
  | load r => cases r <;> simpa [step, fetchBooks] using h
  | addNew => simpa [step, startCreate] using h
  | editClick b => simpa [step, handleEdit] using h
  | fieldChange n v => simpa [step, handleInputChange] using h
  | fileChange f => cases f <;> simpa [step, handleFileChange] using h
  | submitClick ok fr =>
      cases hb : submitButtonDisabled s
      · cases ok <;> cases fr <;>
          simpa [step, hb, handleSubmit, fetchBooks, resetForm] using h
      · simpa [step, hb] using h
  | deleteClick bid c ok fr =>
      cases c <;> cases ok <;> cases fr <;>
        simpa [step, handleDelete, fetchBooks] using h
  | imageError bid =>
      simp only [step, handleImageError]
      split
      · exact h
      · exact List.mem_append_left _ h
  | openChange v => simpa [step, dialogOpenChange] using h
  | cancel => simpa [step, cancelClick, resetForm] using h

/-- Claim C7: the failed-images set is append-only for the session: over
every event sequence no id is ever removed from it, and every later
render of the cover of a book carrying such an id is the fallback view
(icon plus title), never the img element. -/
theorem failedImages_append_only (ops : List Op) (s : ScreenState)
    (x : String) (h : x ∈ s.failedImages) :
    x ∈ (runOps ops s).failedImages ∧
    ∀ b : Book, b._id = x →
      renderCover (runOps ops s) b = CoverView.fallback b.title := by
  have hmem : ∀ (l : List Op) (st : ScreenState), x ∈ st.failedImages →
      x ∈ (runOps l st).failedImages := by
    intro l
    induction l with
    | nil => intro st hst; simpa [runOps] using hst
    | cons op rest ih =>
        intro st hst
        simpa [runOps] using
          ih (step op st).1 (failedImages_step_mono op st x hst)
  refine ⟨hmem ops s h, ?_⟩
  intro b hb
  have hx : b._id ∈ (runOps ops s).failedImages := by
    rw [hb]; exact hmem ops s h
  simp [renderCover, hx]

/-- Claim C7 witness: from a concrete state whose failed set holds the
id of bk0, after an Add New Book click and a successful reload the id is
still in the failed set and the card of bk0 renders the fallback view. -/
theorem failedImages_append_only_witness :
    "1" ∈ (runOps [Op.addNew, Op.load (some [bk0])]
        { initialState with failedImages := ["1"] }).failedImages ∧
    renderCover (runOps [Op.addNew, Op.load (some [bk0])]
        { initialState with failedImages := ["1"] }) bk0 =
      CoverView.fallback bk0.title := by
  have h := failedImages_append_only [Op.addNew, Op.load (some [bk0])]
      { initialState with failedImages := ["1"] } "1" (by simp)
  exact ⟨h.1, h.2 bk0 rfl⟩
